import Mathlib

/-!
Verification of the tower-cache composition layer (src/lib.rs).

Shallow embedding: the cache decorator `CacheService` is modelled as a pure
function over an abstract, stateful, fallible provider
(`ProviderRequest B C → S → Except E (ProviderResponse C) × S`), an abstract
fallible inner service (`A → Except E C`) and a transformer (`A → B`).
Each call additionally returns the list of observable events it performs
(transformer invocation, provider calls, inner-service calls, readiness
polls), so that frame and ordering properties can be stated.

Type variables: `A` = request, `B` = cache key, `C` = response,
`E` = opaque boxed error payload (`Box<dyn Error>` in the source: provider
errors and inner-service errors are boxed to the same dynamic type, which is
modelled by giving both the same payload type `E`), `S` = provider state.
-/

/-- `ProviderRequest<Req, Res>` from src/lib.rs: requests sent to the cache
provider. -/
inductive ProviderRequest (B C : Type) where
  | Get : B → ProviderRequest B C
  | Insert : B → C → ProviderRequest B C
deriving DecidableEq, Repr

/-- `ProviderResponse<Res>` from src/lib.rs: responses sent by the cache
provider. -/
inductive ProviderResponse (C : Type) where
  | Found : C → ProviderResponse C
  | NotFound : ProviderResponse C
deriving DecidableEq, Repr

/-- `Error` from src/lib.rs: errors returned by the cache layer. The opaque
`Box<dyn error::Error + Send + Sync>` payload is modelled by the type
parameter `E`. -/
inductive Error (E : Type) where
  | ProviderError : E → Error E
  | ServiceError : E → Error E
  | InternalError : Error E
deriving DecidableEq, Repr

/-- Observable events of one decorator call, in order of occurrence. -/
inductive Event (A B C : Type) where
  | transformEv : A → B → Event A B C
  | providerPoll : Event A B C
  | providerCall : ProviderRequest B C → Event A B C
  | innerCall : A → Event A B C
deriving DecidableEq, Repr

/-- Number of inner-service invocations recorded in a trace. -/
def countInner {A B C : Type} : List (Event A B C) → Nat
  | [] => 0
  | Event.innerCall _ :: t => countInner t + 1
  | _ :: t => countInner t

/-- Number of provider readiness polls recorded in a trace. -/
def countPolls {A B C : Type} : List (Event A B C) → Nat
  | [] => 0
  | Event.providerPoll :: t => countPolls t + 1
  | _ :: t => countPolls t

/-- Number of transformer invocations recorded in a trace. -/
def countTransform {A B C : Type} : List (Event A B C) → Nat
  | [] => 0
  | Event.transformEv _ _ :: t => countTransform t + 1
  | _ :: t => countTransform t

/-- Number of `Insert` provider calls recorded in a trace. -/
def countInserts {A B C : Type} : List (Event A B C) → Nat
  | [] => 0
  | Event.providerCall (ProviderRequest.Insert _ _) :: t => countInserts t + 1
  | _ :: t => countInserts t

/-- The provider requests issued in a trace, in order. -/
def providerCallsOf {A B C : Type} : List (Event A B C) → List (ProviderRequest B C)
  | [] => []
  | Event.providerCall p :: t => p :: providerCallsOf t
  | _ :: t => providerCallsOf t

/-- Holds of an event when any provider call it carries uses the key `k`. -/
def callKeyIs {A B C : Type} (k : B) : Event A B C → Prop
  | Event.providerCall (ProviderRequest.Get k') => k' = k
  | Event.providerCall (ProviderRequest.Insert k' _) => k' = k
  | _ => True

/-- Scans a trace checking that every provider call is preceded by a
readiness poll issued after the previous provider call. The flag records
whether a poll has been seen since the last provider call. -/
def eachCallPolled {A B C : Type} : List (Event A B C) → Bool → Bool
  | [], _ => true
  | Event.providerPoll :: t, _ => eachCallPolled t true
  | Event.providerCall _ :: t, ready => ready && eachCallPolled t false
  | _ :: t, ready => eachCallPolled t ready

/-- `CacheService::call` (src/lib.rs lines 188-229): transform the request
into a cache key, issue `Get(key)` to the provider; on `Found(res)` return
`res`; on `NotFound` call the inner service (error ⇒ `ServiceError`), then
on success issue `Insert(key, res)` (error ⇒ `ProviderError`, success ⇒
return the original `res`); a `Get` error ⇒ `ProviderError`. Returns the
result, the final provider state and the event trace. -/
def CacheService.call {A B C E S : Type} (transformer : A → B)
    (provider : ProviderRequest B C → S → Except E (ProviderResponse C) × S)
    (inner : A → Except E C) (request : A) (s : S) :
    Except (Error E) C × S × List (Event A B C) :=
  let cache_request := transformer request
  let getOut := provider (ProviderRequest.Get cache_request) s
  let baseTrace : List (Event A B C) :=
    [Event.transformEv request cache_request,
     Event.providerCall (ProviderRequest.Get cache_request)]
  match getOut.1 with
  | Except.ok (ProviderResponse.Found res) => (Except.ok res, getOut.2, baseTrace)
  | Except.ok ProviderResponse.NotFound =>
      let response := Except.mapError (Error.ServiceError (E := E)) (inner request)
      match response with
      | Except.ok res =>
          let insOut := provider (ProviderRequest.Insert cache_request res) getOut.2
          let insTrace := baseTrace ++
            [Event.innerCall request,
             Event.providerCall (ProviderRequest.Insert cache_request res)]
          match insOut.1 with
          | Except.ok _ => (Except.ok res, insOut.2, insTrace)
          | Except.error e => (Except.error (Error.ProviderError e), insOut.2, insTrace)
      | Except.error e => (Except.error e, getOut.2, baseTrace ++ [Event.innerCall request])
  | Except.error e => (Except.error (Error.ProviderError e), getOut.2, baseTrace)

/-- `CacheService::poll_ready` (src/lib.rs lines 182-186): forwards the
provider's readiness poll, wrapping a poll failure as
`Error::ServiceError(e.into())` — exactly as the source does. -/
def CacheService.poll_ready {E : Type} (providerPollResult : Except E Unit) :
    Except (Error E) Unit :=
  Except.mapError (Error.ServiceError (E := E)) providerPollResult

/-- One full dispatch of a request under the tower `Service` contract: the
caller first drives `CacheService::poll_ready` (which polls the provider),
and only when it returns ready-ok proceeds to `CacheService::call`.
`providerPollResult` is the provider's answer to that single readiness poll. -/
def dispatch {A B C E S : Type} (transformer : A → B)
    (provider : ProviderRequest B C → S → Except E (ProviderResponse C) × S)
    (inner : A → Except E C) (providerPollResult : Except E Unit)
    (request : A) (s : S) :
    Except (Error E) C × S × List (Event A B C) :=
  match CacheService.poll_ready providerPollResult with
  | Except.error e => (Except.error e, s, [Event.providerPoll])
  | Except.ok _ =>
      let out := CacheService.call transformer provider inner request s
      (out.1, out.2.1, Event.providerPoll :: out.2.2)

/-- Most-recent-insert lookup in an association list of cache entries. -/
def lookupKey {B C : Type} [DecidableEq B] (k : B) : List (B × C) → Option C
  | [] => none
  | (k', r) :: t => if k = k' then some r else lookupKey k t

/-- A provider that answers `Get` with the value of the most recent `Insert`
for the same key and never fails (the shape assumed by C1, and the shape of
the `SimpleCache` test provider in src/lib.rs, which answers an `Insert`
with `Found(res)`). -/
def assocProvider {B C E : Type} [DecidableEq B] :
    ProviderRequest B C → List (B × C) → Except E (ProviderResponse C) × List (B × C)
  | ProviderRequest.Get k, s =>
      match lookupKey k s with
      | some r => (Except.ok (ProviderResponse.Found r), s)
      | none => (Except.ok ProviderResponse.NotFound, s)
  | ProviderRequest.Insert k r, s => (Except.ok (ProviderResponse.Found r), (k, r) :: s)

/-- A concrete provider whose `Get` always misses and whose `Insert` always
fails, used to witness the write-failure path. -/
def flakyProvider : ProviderRequest Nat Nat → Unit → Except String (ProviderResponse Nat) × Unit
  | ProviderRequest.Get _, s => (Except.ok ProviderResponse.NotFound, s)
  | ProviderRequest.Insert _ _, s => (Except.error "insert failed", s)

/-- Idempotency decorator's `Error`, which additionally carries the
`AlreadyProcessed` rejection. Modelled from the spec: the idempotency
decorator's source is not present under src/; the spec's §3 error union has
the extra idempotency-only `AlreadyProcessed` variant. -/
inductive IdemError (E : Type) where
  | ProviderError : E → IdemError E
  | ServiceError : E → IdemError E
  | InternalError : IdemError E
  | AlreadyProcessed : IdemError E
deriving DecidableEq, Repr

/-- Idempotency provider's answer to a `Check`: `Found` is a marker with no
payload. Modelled from the spec (§3): the idempotency decorator's source is
not present under src/. -/
inductive IdemProviderResponse where
  | Found : IdemProviderResponse
  | NotFound : IdemProviderResponse
deriving DecidableEq, Repr

/-- Modelled from the spec: `IdempotencyService::call` is not present under
src/. Per §4.4: issue the provider a check carrying the raw request (no
transformer); provider error ⇒ `ProviderError`; `Found` ⇒ terminate with
`AlreadyProcessed` without invoking the inner service; `NotFound` ⇒ invoke
the inner service under the exclusivity guard (sequential here, so the
guard is elided), mapping its error to `ServiceError` and returning its
response unchanged; no provider write-back occurs. Returns the result, the
final provider state and the number of inner-service invocations. -/
def IdempotencyService.call {A C E S : Type}
    (provider : A → S → Except E IdemProviderResponse × S)
    (inner : A → Except E C) (request : A) (s : S) :
    Except (IdemError E) C × S × Nat :=
  match provider request s with
  | (Except.error e, s') => (Except.error (IdemError.ProviderError e), s', 0)
  | (Except.ok IdemProviderResponse.Found, s') =>
      (Except.error (IdemError.AlreadyProcessed), s', 0)
  | (Except.ok IdemProviderResponse.NotFound, s') =>
      match inner request with
      | Except.ok res => (Except.ok res, s', 1)
      | Except.error e => (Except.error (IdemError.ServiceError e), s', 1)

/-- C2: for every call where the provider answers the `Get` with
`Found(res)`, the cache decorator terminates successfully returning `res`,
and the inner service is never invoked during that call. -/
theorem C2_cache_hit_short_circuit {A B C E S : Type} (transformer : A → B)
    (provider : ProviderRequest B C → S → Except E (ProviderResponse C) × S)
    (inner : A → Except E C) (r : A) (s : S) (res : C) (s' : S)
    (hGet : provider (ProviderRequest.Get (transformer r)) s =
      (Except.ok (ProviderResponse.Found res), s')) :
    (CacheService.call transformer provider inner r s).1 = Except.ok res ∧
    countInner (CacheService.call transformer provider inner r s).2.2 = 0 := by
  simp [CacheService.call, hGet, countInner]

/-- Witness for C2 at a concrete input: transformer is the identity,
the provider holds the entry (3, 99), the inner service doubles. -/
theorem C2_witness :
    assocProvider (ProviderRequest.Get 3) [(3, 99)] =
      ((Except.ok (ProviderResponse.Found 99) : Except String (ProviderResponse Nat)),
        [(3, 99)]) ∧
    ((CacheService.call (fun n : Nat => n) (assocProvider (E := String))
        (fun n => Except.ok (n * 2)) 3 [(3, 99)]).1 = Except.ok 99 ∧
      countInner (CacheService.call (fun n : Nat => n) (assocProvider (E := String))
        (fun n => Except.ok (n * 2)) 3 [(3, 99)]).2.2 = 0) :=
  ⟨rfl, C2_cache_hit_short_circuit (fun n : Nat => n) (assocProvider (E := String))
    (fun n => Except.ok (n * 2)) 3 [(3, 99)] 99 [(3, 99)] rfl⟩

/-- C10: for every call in which the provider answers the `Get` with
`Found(res)`, the `Get` is the only provider interaction of that call — no
`Insert` is issued — and the provider state after the call is exactly the
state after the `Get`. -/
theorem C10_hit_leaves_provider_unwritten {A B C E S : Type} (transformer : A → B)
    (provider : ProviderRequest B C → S → Except E (ProviderResponse C) × S)
    (inner : A → Except E C) (r : A) (s : S) (res : C) (s' : S)
    (hGet : provider (ProviderRequest.Get (transformer r)) s =
      (Except.ok (ProviderResponse.Found res), s')) :
    providerCallsOf (CacheService.call transformer provider inner r s).2.2 =
      [ProviderRequest.Get (transformer r)] ∧
    countInserts (CacheService.call transformer provider inner r s).2.2 = 0 ∧
    (CacheService.call transformer provider inner r s).2.1 = s' := by
  simp [CacheService.call, hGet, providerCallsOf, countInserts]

/-- Witness for C10 at a concrete input: provider holds the entry (3, 99). -/
theorem C10_witness :
    assocProvider (ProviderRequest.Get 3) [(3, 99)] =
      ((Except.ok (ProviderResponse.Found 99) : Except String (ProviderResponse Nat)),
        [(3, 99)]) ∧
    (providerCallsOf (CacheService.call (fun n : Nat => n) (assocProvider (E := String))
        (fun n => Except.ok (n * 2)) 3 [(3, 99)]).2.2 = [ProviderRequest.Get 3] ∧
      countInserts (CacheService.call (fun n : Nat => n) (assocProvider (E := String))
        (fun n => Except.ok (n * 2)) 3 [(3, 99)]).2.2 = 0 ∧
      (CacheService.call (fun n : Nat => n) (assocProvider (E := String))
        (fun n => Except.ok (n * 2)) 3 [(3, 99)]).2.1 = [(3, 99)]) :=
  ⟨rfl, C10_hit_leaves_provider_unwritten (fun n : Nat => n) (assocProvider (E := String))
    (fun n => Except.ok (n * 2)) 3 [(3, 99)] 99 [(3, 99)] rfl⟩

/-- C3: for every call where the provider answers the `Get` with `NotFound`
and the inner service then fails with error `e`, the cache decorator returns
`Error::ServiceError(e)` and issues no `Insert`; the provider state stays
the state after the `Get`. -/
theorem C3_no_negative_caching {A B C E S : Type} (transformer : A → B)
    (provider : ProviderRequest B C → S → Except E (ProviderResponse C) × S)
    (inner : A → Except E C) (r : A) (s : S) (e : E) (s' : S)
    (hGet : provider (ProviderRequest.Get (transformer r)) s =
      (Except.ok ProviderResponse.NotFound, s'))
    (hInner : inner r = Except.error e) :
    (CacheService.call transformer provider inner r s).1 =
      Except.error (Error.ServiceError e) ∧
    countInserts (CacheService.call transformer provider inner r s).2.2 = 0 ∧
    (CacheService.call transformer provider inner r s).2.1 = s' := by
  simp [CacheService.call, hGet, hInner, countInserts, Except.mapError]

/-- Witness for C3 at a concrete input: empty provider, failing inner
service. -/
theorem C3_witness :
    assocProvider (ProviderRequest.Get 3) ([] : List (Nat × Nat)) =
      ((Except.ok ProviderResponse.NotFound : Except String (ProviderResponse Nat)), []) ∧
    (fun _ : Nat => (Except.error "boom" : Except String Nat)) 3 = Except.error "boom" ∧
    ((CacheService.call (fun n : Nat => n) (assocProvider (E := String))
        (fun _ => Except.error "boom") 3 ([] : List (Nat × Nat))).1 =
      Except.error (Error.ServiceError "boom") ∧
      countInserts (CacheService.call (fun n : Nat => n) (assocProvider (E := String))
        (fun _ => Except.error "boom") 3 ([] : List (Nat × Nat))).2.2 = 0 ∧
      (CacheService.call (fun n : Nat => n) (assocProvider (E := String))
        (fun _ => Except.error "boom") 3 ([] : List (Nat × Nat))).2.1 = []) :=
  ⟨rfl, rfl, C3_no_negative_caching (fun n : Nat => n) (assocProvider (E := String))
    (fun _ => Except.error "boom") 3 [] "boom" [] rfl rfl⟩

/-- C4: for every call where the `Get` answers `NotFound`, the inner service
succeeds, and the subsequent `Insert` fails with error `e`, the cache
decorator returns `Error::ProviderError(e)` even though the inner-service
call succeeded. -/
theorem C4_write_failure_surfacing {A B C E S : Type} (transformer : A → B)
    (provider : ProviderRequest B C → S → Except E (ProviderResponse C) × S)
    (inner : A → Except E C) (r : A) (s : S) (res : C) (e : E) (s' s'' : S)
    (hGet : provider (ProviderRequest.Get (transformer r)) s =
      (Except.ok ProviderResponse.NotFound, s'))
    (hInner : inner r = Except.ok res)
    (hIns : provider (ProviderRequest.Insert (transformer r) res) s' =
      (Except.error e, s'')) :
    (CacheService.call transformer provider inner r s).1 =
      Except.error (Error.ProviderError e) := by
  simp [CacheService.call, hGet, hInner, hIns, Except.mapError]

/-- Witness for C4 at a concrete input: a provider whose `Insert` always
fails. -/
theorem C4_witness :
    flakyProvider (ProviderRequest.Get 3) () = (Except.ok ProviderResponse.NotFound, ()) ∧
    (fun n : Nat => (Except.ok (n * 2) : Except String Nat)) 3 = Except.ok 6 ∧
    flakyProvider (ProviderRequest.Insert 3 6) () = (Except.error "insert failed", ()) ∧
    (CacheService.call (fun n : Nat => n) flakyProvider
        (fun n => Except.ok (n * 2)) 3 ()).1 =
      Except.error (Error.ProviderError "insert failed") :=
  ⟨rfl, rfl, rfl, C4_write_failure_surfacing (fun n : Nat => n) flakyProvider
    (fun n => Except.ok (n * 2)) 3 () 6 "insert failed" () () rfl rfl rfl⟩

/-- C5: for every call where the `Get` answers `NotFound`, the inner service
succeeds with `res`, and the `Insert` succeeds, the cache decorator returns
the original `res`, whatever `ProviderResponse` value `pr` the provider
returned for the `Insert`. -/
theorem C5_miss_path_return {A B C E S : Type} (transformer : A → B)
    (provider : ProviderRequest B C → S → Except E (ProviderResponse C) × S)
    (inner : A → Except E C) (r : A) (s : S) (res : C)
    (pr : ProviderResponse C) (s' s'' : S)
    (hGet : provider (ProviderRequest.Get (transformer r)) s =
      (Except.ok ProviderResponse.NotFound, s'))
    (hInner : inner r = Except.ok res)
    (hIns : provider (ProviderRequest.Insert (transformer r) res) s' =
      (Except.ok pr, s'')) :
    (CacheService.call transformer provider inner r s).1 = Except.ok res := by
  simp [CacheService.call, hGet, hInner, hIns, Except.mapError]

/-- Witness for C5 at a concrete input: empty provider, successful inner
service, `Insert` answered with `Found(6)`. -/
theorem C5_witness :
    assocProvider (ProviderRequest.Get 3) ([] : List (Nat × Nat)) =
      ((Except.ok ProviderResponse.NotFound : Except String (ProviderResponse Nat)), []) ∧
    (fun n : Nat => (Except.ok (n * 2) : Except String Nat)) 3 = Except.ok 6 ∧
    assocProvider (ProviderRequest.Insert 3 6) ([] : List (Nat × Nat)) =
      ((Except.ok (ProviderResponse.Found 6) : Except String (ProviderResponse Nat)),
        [(3, 6)]) ∧
    (CacheService.call (fun n : Nat => n) (assocProvider (E := String))
        (fun n => Except.ok (n * 2)) 3 ([] : List (Nat × Nat))).1 = Except.ok 6 :=
  ⟨rfl, rfl, rfl, C5_miss_path_return (fun n : Nat => n) (assocProvider (E := String))
    (fun n => Except.ok (n * 2)) 3 [] 6 (ProviderResponse.Found 6) [] [(3, 6)]
    rfl rfl rfl⟩

/-- C1: for every request whose key misses in a most-recent-insert provider,
the cache decorator returns the response the inner service returns for that
request, and a second call with the identical request returns that stored
response without invoking the inner service again. -/
theorem C1_round_trip {A B C E : Type} [DecidableEq B] (transformer : A → B)
    (inner : A → Except E C) (r : A) (res : C) (s : List (B × C))
    (hmiss : lookupKey (transformer r) s = none)
    (hInner : inner r = Except.ok res) :
    (CacheService.call transformer assocProvider inner r s).1 = Except.ok res ∧
    (CacheService.call transformer assocProvider inner r
      (CacheService.call transformer assocProvider inner r s).2.1).1 = Except.ok res ∧
    countInner (CacheService.call transformer assocProvider inner r
      (CacheService.call transformer assocProvider inner r s).2.1).2.2 = 0 := by
  have h1 : CacheService.call transformer (assocProvider (E := E)) inner r s =
      (Except.ok res, (transformer r, res) :: s,
        [Event.transformEv r (transformer r),
         Event.providerCall (ProviderRequest.Get (transformer r)),
         Event.innerCall r,
         Event.providerCall (ProviderRequest.Insert (transformer r) res)]) := by
    simp [CacheService.call, assocProvider, hmiss, hInner, Except.mapError]
  rw [h1]
  simp [CacheService.call, assocProvider, lookupKey, countInner]

/-- Witness for C1 at a concrete input: identity transformer, doubling inner
service, request 3 against an empty provider. -/
theorem C1_witness :
    lookupKey 3 ([] : List (Nat × Nat)) = none ∧
    (fun n : Nat => (Except.ok (n * 2) : Except String Nat)) 3 = Except.ok 6 ∧
    ((CacheService.call (fun n : Nat => n) (assocProvider (E := String))
        (fun n => Except.ok (n * 2)) 3 ([] : List (Nat × Nat))).1 = Except.ok 6 ∧
      (CacheService.call (fun n : Nat => n) (assocProvider (E := String))
        (fun n => Except.ok (n * 2)) 3
        (CacheService.call (fun n : Nat => n) (assocProvider (E := String))
          (fun n => Except.ok (n * 2)) 3 ([] : List (Nat × Nat))).2.1).1 =
        Except.ok 6 ∧
      countInner (CacheService.call (fun n : Nat => n) (assocProvider (E := String))
        (fun n => Except.ok (n * 2)) 3
        (CacheService.call (fun n : Nat => n) (assocProvider (E := String))
          (fun n => Except.ok (n * 2)) 3 ([] : List (Nat × Nat))).2.1).2.2 = 0) :=
  ⟨rfl, rfl, C1_round_trip (fun n : Nat => n)
    (fun n => Except.ok (n * 2)) 3 6 [] rfl rfl⟩

/-- C9: for every request the provider reports as already processed
(`Check` answered `Found`), the idempotency decorator returns
`AlreadyProcessed` and never invokes the inner service. -/
theorem C9_idempotency_rejection {A C E S : Type}
    (provider : A → S → Except E IdemProviderResponse × S)
    (inner : A → Except E C) (r : A) (s : S) (s' : S)
    (hCheck : provider r s = (Except.ok IdemProviderResponse.Found, s')) :
    (IdempotencyService.call provider inner r s).1 =
      Except.error IdemError.AlreadyProcessed ∧
    (IdempotencyService.call provider inner r s).2.2 = 0 := by
  simp [IdempotencyService.call, hCheck]

/-- Witness for C9 at a concrete input: a provider that marks every request
as already processed. -/
theorem C9_witness :
    (fun (_ : Nat) (s : Unit) =>
        ((Except.ok IdemProviderResponse.Found : Except String IdemProviderResponse), s))
      3 () = (Except.ok IdemProviderResponse.Found, ()) ∧
    ((IdempotencyService.call
        (fun (_ : Nat) (s : Unit) =>
          ((Except.ok IdemProviderResponse.Found : Except String IdemProviderResponse), s))
        (fun n => Except.ok (n * 2)) 3 ()).1 =
      Except.error IdemError.AlreadyProcessed ∧
      (IdempotencyService.call
        (fun (_ : Nat) (s : Unit) =>
          ((Except.ok IdemProviderResponse.Found : Except String IdemProviderResponse), s))
        (fun n => Except.ok (n * 2)) 3 ()).2.2 = 0) :=
  ⟨rfl, C9_idempotency_rejection
    (fun (_ : Nat) (s : Unit) =>
      ((Except.ok IdemProviderResponse.Found : Except String IdemProviderResponse), s))
    (fun n => Except.ok (n * 2)) 3 () () rfl⟩

/-- C8: every call invokes the transformer exactly once, as the first event
(before any provider interaction), and every provider call of the call
(`Get` and `Insert`) uses the resulting key. -/
theorem C8_transform_discipline {A B C E S : Type} (transformer : A → B)
    (provider : ProviderRequest B C → S → Except E (ProviderResponse C) × S)
    (inner : A → Except E C) (r : A) (s : S) :
    countTransform (CacheService.call transformer provider inner r s).2.2 = 1 ∧
    ((CacheService.call transformer provider inner r s).2.2).head? =
      some (Event.transformEv r (transformer r)) ∧
    ∀ ev ∈ (CacheService.call transformer provider inner r s).2.2,
      callKeyIs (transformer r) ev := by
  rcases hg : provider (ProviderRequest.Get (transformer r)) s with ⟨gr, s1⟩
  rcases gr with e | pr
  · simp [CacheService.call, hg, countTransform, callKeyIs]
  · rcases pr with res | _
    · simp [CacheService.call, hg, countTransform, callKeyIs]
    · rcases hi : inner r with e | res
      · simp [CacheService.call, hg, hi, Except.mapError, countTransform, callKeyIs]
      · rcases hins : provider (ProviderRequest.Insert (transformer r) res) s1 with ⟨ir, s2⟩
        rcases ir with e | pr'
        · simp [CacheService.call, hg, hi, hins, Except.mapError, countTransform, callKeyIs]
        · simp [CacheService.call, hg, hi, hins, Except.mapError, countTransform, callKeyIs]

/-- Helper: `CacheService::call` itself performs no readiness poll — the
only poll of a dispatch is the one issued through `poll_ready`. -/
theorem countPolls_call_eq_zero {A B C E S : Type} (transformer : A → B)
    (provider : ProviderRequest B C → S → Except E (ProviderResponse C) × S)
    (inner : A → Except E C) (r : A) (s : S) :
    countPolls (CacheService.call transformer provider inner r s).2.2 = 0 := by
  rcases hg : provider (ProviderRequest.Get (transformer r)) s with ⟨gr, s1⟩
  rcases gr with e | pr
  · simp [CacheService.call, hg, countPolls]
  · rcases pr with res | _
    · simp [CacheService.call, hg, countPolls]
    · rcases hi : inner r with e | res
      · simp [CacheService.call, hg, hi, Except.mapError, countPolls]
      · rcases hins : provider (ProviderRequest.Insert (transformer r) res) s1 with ⟨ir, s2⟩
        rcases ir with e | pr'
        · simp [CacheService.call, hg, hi, hins, Except.mapError, countPolls]
        · simp [CacheService.call, hg, hi, hins, Except.mapError, countPolls]

/-- C7 counterexample: on a concrete miss-path dispatch (identity
transformer, empty most-recent-insert provider, doubling inner service,
request 0) the trace is
poll, transform, `Get`, inner call, `Insert` — and the `Insert` is issued
with no readiness poll after the `Get`, so the every-provider-call-polled
scan fails. -/
theorem C7_counterexample :
    eachCallPolled (dispatch (fun n : Nat => n) (assocProvider (E := String))
      (fun n => Except.ok (n * 2)) (Except.ok ()) 0 ([] : List (Nat × Nat))).2.2
      false = false := rfl

/-- C7 amended: each dispatch polls the provider's readiness exactly once,
as its first event — so the `Get` is preceded by a readiness poll, but the
`Insert`, when issued, is sent on the cloned provider handle with no
further readiness poll. -/
theorem C7_single_poll_before_get {A B C E S : Type} (transformer : A → B)
    (provider : ProviderRequest B C → S → Except E (ProviderResponse C) × S)
    (inner : A → Except E C) (pollRes : Except E Unit) (r : A) (s : S) :
    ((dispatch transformer provider inner pollRes r s).2.2).head? =
      some Event.providerPoll ∧
    countPolls (dispatch transformer provider inner pollRes r s).2.2 = 1 := by
  rcases pollRes with e | u
  · simp [dispatch, CacheService.poll_ready, Except.mapError, countPolls]
  · simp [dispatch, CacheService.poll_ready, Except.mapError, countPolls,
      countPolls_call_eq_zero]

/-- C6: evaluation of `CacheService::poll_ready` at a failing provider
readiness poll: the source (src/lib.rs line 185) wraps the provider's poll
error as `Error::ServiceError`, not as `Error::ProviderError` — although the
error was generated by the provider. -/
theorem C6_poll_ready_mistags_provider_failure :
    CacheService.poll_ready (Except.error "provider down") =
      (Except.error (Error.ServiceError "provider down") : Except (Error String) Unit) ∧
    ∀ e : String, CacheService.poll_ready (Except.error "provider down") ≠
      (Except.error (Error.ProviderError e) : Except (Error String) Unit) := by
  refine ⟨rfl, ?_⟩
  intro e h
  simp [CacheService.poll_ready, Except.mapError] at h
